import Mathlib

/-!
Shallow embedding of the Soni Zi Creations backend (src/main.py, src/schemas.py).

The HTTP handlers in main.py are modelled as pure functions over an explicit
`Store` (the document store's state).  Documents are association lists of
string keys and BSON-like values; Python floats are modelled as rationals.
The document gateway module (database.py: create_document / get_documents)
is not part of the provided sources; those two operations are modelled from
the specification, as marked in their doc comments.
-/

/-- A BSON-like value stored in a document.  `vobjId` carries the 24-hex-char
string form of a store identifier, `vdtime` carries a timestamp's ISO-8601
text (the value `datetime.isoformat()` would produce). -/
inductive Value where
  | vstr (s : String)
  | vnum (q : ℚ)
  | vbool (b : Bool)
  | vobjId (hex : String)
  | vdtime (iso : String)
  | vnull
  | varr (elems : List Value)
  | vdoc (fields : List (String × Value))

open Value

/-- A document: an insertion-ordered dictionary with (in practice) unique keys. -/
abbrev Doc := List (String × Value)

/-- Python `doc.get(k)`: first entry with key `k`, if any. -/
def dget (d : Doc) (k : String) : Option Value :=
  match d with
  | [] => none
  | (k', v) :: t => if k' = k then some v else dget t k

/-- Python `doc.get(k, dflt)`. -/
def dgetD (d : Doc) (k : String) (dflt : Value) : Value :=
  (dget d k).getD dflt

/-- Python `doc[k] = v`: update the entry in place if the key is present,
otherwise append it at the end. -/
def dset (d : Doc) (k : String) (v : Value) : Doc :=
  match d with
  | [] => [(k, v)]
  | (k', v') :: t => if k' = k then (k, v) :: t else (k', v') :: dset t k v

/-- Python `doc.pop(k)` (ignoring the returned value): remove the first entry
with key `k`. -/
def dpop (d : Doc) (k : String) : Doc :=
  match d with
  | [] => []
  | (k', v') :: t => if k' = k then t else (k', v') :: dpop t k

/-- Python truthiness of a stored value (`if doc.get("_id"):`). -/
def pyTruthy : Value → Bool
  | vstr s => !s.isEmpty
  | vnum q => if q = 0 then false else true
  | vbool b => b
  | vobjId _ => true
  | vdtime _ => true
  | vnull => false
  | varr l => !l.isEmpty
  | vdoc d => !d.isEmpty

/-- Python `str(v)` as used on the `_id` value.  For an ObjectId this is its
hex string; the handlers only ever apply it to ObjectIds, so the remaining
cases are simple renderings. -/
def pyStr : Value → String
  | vstr s => s
  | vnum q => toString q
  | vbool b => if b then "True" else "False"
  | vobjId hex => hex
  | vdtime iso => iso
  | vnull => "None"
  | varr _ => "[...]"
  | vdoc _ => "{...}"

/-- Python `hasattr(v, "isoformat")`: true exactly on datetime values. -/
def isDatetime : Value → Bool
  | vdtime _ => true
  | _ => false

/-- The `v.isoformat()` call on a datetime value. -/
def isoOf : Value → String
  | vdtime iso => iso
  | _ => ""

/-- The body of the datetime-normalisation loop in serialize_doc:
`doc[k] = v.isoformat() if hasattr(v, "isoformat") else v`. -/
def convDT (v : Value) : Value :=
  if isDatetime v then vstr (isoOf v) else v

/-- main.py `serialize_doc` (lines 35-45): copy the document; if it has a
truthy `_id`, pop it and store its string form under `id`; then replace every
datetime value by its ISO text. -/
def serialize_doc (doc : Doc) : Doc :=
  if doc.isEmpty then doc
  else
    let d1 :=
      match dget doc "_id" with
      | some v => if pyTruthy v then dset (dpop doc "_id") "id" (vstr (pyStr v)) else doc
      | none => doc
    d1.map (fun kv => (kv.1, convDT kv.2))

/-- Hex digit test used by `bson.ObjectId.is_valid` on strings. -/
def isHexDigit (c : Char) : Bool :=
  c.isDigit || (('a' ≤ c) && (c ≤ 'f')) || (('A' ≤ c) && (c ≤ 'F'))

/-- `bson.ObjectId.is_valid` on a string: 24 hex characters.  (The bytes form
of identifiers is not used by this API, whose payloads carry strings.) -/
def isValidOid (s : String) : Bool :=
  s.length == 24 && s.toList.all isHexDigit

/-- main.py `PyObjectId.validate` (lines 27-33) on a string: raises
`ValueError("Invalid ObjectId")` if the string is not a valid ObjectId,
otherwise yields the identifier.  (ObjectId normalises hex case; the API's
stored identifiers are lowercase hex, so the string is kept as is.) -/
def pyValidate (s : String) : Except String String :=
  if isValidOid s then .ok s else .error "Invalid ObjectId"

/-- Python `float(v)` on a stored value.  Succeeds on numbers and booleans;
raises on other types.  (Parsing of numeric strings is not modelled; no
stored price is a string.) -/
def pyFloat : Value → Except String ℚ
  | vnum q => .ok q
  | vbool b => .ok (if b then 1 else 0)
  | _ => .error "could not convert value to float"

/-- Rounding to the nearest integer with ties to even, as Python's builtin
`round` does.  (Python rounds binary floats; the rational model is the exact
idealisation and all amounts in play are exact in 2 decimal places.) -/
def roundHalfEven (q : ℚ) : ℤ :=
  let f : ℤ := ⌊q⌋
  let r : ℚ := q - (f : ℚ)
  if r < 1 / 2 then f
  else if 1 / 2 < r then f + 1
  else if f % 2 = 0 then f else f + 1

/-- Python `round(x, 2)`. -/
def pyRound2 (q : ℚ) : ℚ :=
  ((roundHalfEven (q * 100) : ℤ) : ℚ) / 100

/-! ## Schemas (src/schemas.py) -/

/-- schemas.py `OrderItem`: product ObjectId as string, quantity ≥ 1
(the lower bound is enforced by payload validation, not by the type). -/
structure OrderItemR where
  product_id : String
  quantity : Nat
  deriving DecidableEq

/-- main.py `CheckoutPayload` (lines 103-108). -/
structure CheckoutPayload where
  customer_name : String
  customer_email : String
  customer_phone : Option String
  shipping_address : String
  items : List OrderItemR
  deriving DecidableEq

/-- schemas.py `Product`. -/
structure ProductR where
  title : String
  description : Option String
  price : ℚ
  category : String
  in_stock : Bool
  stock_qty : Nat
  image : Option String
  deriving DecidableEq

/-- schemas.py `Order`; `status` defaults to "pending" at construction. -/
structure OrderR where
  customer_name : String
  customer_email : String
  customer_phone : Option String
  shipping_address : String
  items : List OrderItemR
  subtotal : ℚ
  total : ℚ
  status : String

/-- The order record built at main.py lines 120-128: both `subtotal` and
`total` are `round(subtotal, 2)` of the accumulated sum, and `status` is the
schema default "pending". -/
def mkOrder (p : CheckoutPayload) (sub : ℚ) : OrderR :=
  { customer_name := p.customer_name
    customer_email := p.customer_email
    customer_phone := p.customer_phone
    shipping_address := p.shipping_address
    items := p.items
    subtotal := pyRound2 sub
    total := pyRound2 sub
    status := "pending" }

/-- Optional string rendered as a BSON value (`None` stored as null). -/
def optV : Option String → Value
  | some s => vstr s
  | none => vnull

/-- An order item as an embedded subdocument. -/
def itemToValue (it : OrderItemR) : Value :=
  vdoc [("product_id", vstr it.product_id), ("quantity", vnum it.quantity)]

/-- The stored document of an order: the record's fields in declaration
order, with the generated `_id` first as the store returns it. -/
def orderToDoc (id : String) (o : OrderR) : Doc :=
  [("_id", vobjId id),
   ("customer_name", vstr o.customer_name),
   ("customer_email", vstr o.customer_email),
   ("customer_phone", optV o.customer_phone),
   ("shipping_address", vstr o.shipping_address),
   ("items", varr (o.items.map itemToValue)),
   ("subtotal", vnum o.subtotal),
   ("total", vnum o.total),
   ("status", vstr o.status)]

/-- The stored document of a product record. -/
def productToDoc (id : String) (p : ProductR) : Doc :=
  [("_id", vobjId id),
   ("title", vstr p.title),
   ("description", optV p.description),
   ("price", vnum p.price),
   ("category", vstr p.category),
   ("in_stock", vbool p.in_stock),
   ("stock_qty", vnum p.stock_qty),
   ("image", optV p.image)]

/-! ## The store -/

/-- The document store's state: the `product` and `order` collections, and a
counter from which fresh identifiers are generated. -/
structure Store where
  product : List Doc
  order : List Doc
  nextId : Nat

/-- A fresh 24-hex-char identifier generated from the store's counter. -/
def genId (n : Nat) : String :=
  let hx := Nat.toDigits 16 n
  String.mk (List.replicate (24 - hx.length) '0' ++ hx)

/-- Exact-match equality of atomic stored values, as the store's filter uses
it.  (The filters this API builds only carry strings, so composite values
need no equality here.) -/
def valEq : Value → Value → Bool
  | vstr a, vstr b => a == b
  | vnum a, vnum b => a == b
  | vbool a, vbool b => a == b
  | vobjId a, vobjId b => a == b
  | vdtime a, vdtime b => a == b
  | vnull, vnull => true
  | _, _ => false

/-- A document matches a filter when every filter field is present with an
exactly equal value. -/
def matchesFilter (flt : List (String × Value)) (d : Doc) : Bool :=
  flt.all (fun kv =>
    match dget d kv.1 with
    | some w => valEq w kv.2
    | none => false)

/-- The store's `find_one({"_id": oid})` predicate on a document. -/
def idMatches (oid : String) (d : Doc) : Bool :=
  match dget d "_id" with
  | some (vobjId s) => s == oid
  | _ => false

/-- Modelled from the spec: database.py `get_documents(collectionName,
filter)` is not in the provided sources; per §4.1 the filter is a mapping of
field to exact-match value and an empty filter returns all documents in
stable order. -/
def get_documents (docs : List Doc) (flt : List (String × Value)) : List Doc :=
  docs.filter (matchesFilter flt)

/-! ## Product endpoints (main.py lines 84-100) -/

/-- main.py `list_products` (lines 84-91): `{"category": category} if
category else {}` — both a missing and an empty category string are falsy and
give the empty filter. -/
def list_products (category : Option String) (s : Store) : List Doc :=
  let filter_q : List (String × Value) :=
    match category with
    | some c => if c = "" then [] else [("category", vstr c)]
    | none => []
  (get_documents s.product filter_q).map serialize_doc

/-- main.py `create_product` (lines 93-100).  The insert itself
(database.py `create_document`) is modelled from the spec: the validated
record is persisted under a generated identifier. -/
def create_product (s : Store) (p : ProductR) : Store × Option Doc :=
  let newId := genId s.nextId
  let s' : Store :=
    { s with product := s.product ++ [productToDoc newId p], nextId := s.nextId + 1 }
  (s', (s'.product.find? (idMatches newId)).map serialize_doc)

/-- main.py `list_orders` (lines 137-144). -/
def list_orders (email : Option String) (s : Store) : List Doc :=
  let q : List (String × Value) :=
    match email with
    | some e => if e = "" then [] else [("customer_email", vstr e)]
    | none => []
  (get_documents s.order q).map serialize_doc

/-! ## Checkout (main.py lines 110-135) -/

/-- An HTTP error response: `HTTPException(status_code, detail)`.  Uncaught
exceptions become status 500 with the exception text as detail. -/
structure HErr where
  status : Nat
  detail : String
  deriving DecidableEq

/-- Gateway availability: `avail k` tells whether the store is reachable at
the k-th store call of the request (an unreachable store makes the driver
raise, which the blanket handler maps to a 500). -/
abbrev Avail := Nat → Bool

/-- A permanently reachable store. -/
def allAvail : Avail := fun _ => true

/-- The subtotal loop of `create_order` (main.py lines 114-119): for each
item, validate the identifier (a `ValueError` escapes to the blanket 500
handler), look the product up by `_id` (404 with the offending reference if
absent), and accumulate `float(prod.get("price", 0)) * item.quantity`. -/
def subtotalLoop (avail : Avail) (prods : List Doc) :
    List OrderItemR → Nat → ℚ → Except HErr ℚ
  | [], _, acc => .ok acc
  | item :: rest, k, acc =>
    match pyValidate item.product_id with
    | .error e => .error ⟨500, e⟩
    | .ok oid =>
      if avail k then
        match prods.find? (idMatches oid) with
        | none => .error ⟨404, "Product not found: " ++ item.product_id⟩
        | some prod =>
          match pyFloat (dgetD prod "price" (vnum 0)) with
          | .error e => .error ⟨500, e⟩
          | .ok price =>
            subtotalLoop avail prods rest (k + 1) (acc + price * (item.quantity : ℚ))
      else .error ⟨500, "store unreachable"⟩

/-- main.py `create_order` (lines 110-135).  Returns the store after the
request together with the response: a serialized document (or null if the
readback misses) on success, an `HErr` on failure.  The persisting insert
(database.py `create_document`) is modelled from the spec as appending the
record under a generated identifier, failing when the store is unreachable;
the k-th product lookup consults `avail k`, the insert consults
`avail items.length`, and the readback consults `avail (items.length + 1)`. -/
def create_order (avail : Avail) (s : Store) (p : CheckoutPayload) :
    Store × Except HErr (Option Doc) :=
  match subtotalLoop avail s.product p.items 0 0 with
  | .error e => (s, .error e)
  | .ok sub =>
    let ord := mkOrder p sub
    if avail p.items.length then
      let newId := genId s.nextId
      let s' : Store :=
        { s with order := s.order ++ [orderToDoc newId ord], nextId := s.nextId + 1 }
      if avail (p.items.length + 1) then
        (s', .ok ((s'.order.find? (idMatches newId)).map serialize_doc))
      else (s', .error ⟨500, "store unreachable"⟩)
    else (s, .error ⟨500, "store unreachable"⟩)

/-! ## Seeding (main.py lines 147-184) -/

/-- The response of the seed endpoint: either the no-op message or the count
of inserted documents. -/
inductive SeedResp where
  | message (m : String)
  | inserted (n : Nat)
  deriving DecidableEq

/-- The three demo products of main.py lines 152-180, as the dict literals
passed to `insert_many` (no `_id` yet). -/
def sample_products : List Doc :=
  [[("title", vstr "Handcrafted Silk Scarf"),
    ("description", vstr "Premium silk scarf with elegant patterns"),
    ("price", vnum 1499),
    ("category", vstr "Accessories"),
    ("in_stock", vbool true),
    ("stock_qty", vnum 25),
    ("image", vstr "https://images.unsplash.com/photo-1520975693411-b40e8f1de1e5?q=80&w=1200&auto=format&fit=crop")],
   [("title", vstr "Artisanal Pottery Vase"),
    ("description", vstr "Handmade ceramic vase with glaze finish"),
    ("price", vnum 2299),
    ("category", vstr "Home Decor"),
    ("in_stock", vbool true),
    ("stock_qty", vnum 12),
    ("image", vstr "https://images.unsplash.com/photo-1519710164239-da123dc03ef4?q=80&w=1200&auto=format&fit=crop")],
   [("title", vstr "Embroidered Tote Bag"),
    ("description", vstr "Canvas tote with traditional embroidery"),
    ("price", vnum 999),
    ("category", vstr "Bags"),
    ("in_stock", vbool true),
    ("stock_qty", vnum 40),
    ("image", vstr "https://images.unsplash.com/photo-1553062407-98eeb64c6a62?q=80&w=1200&auto=format&fit=crop")]]

/-- `insert_many`: each document is stored with a freshly generated `_id`. -/
def insertMany (s : Store) (docs : List Doc) : Store :=
  match docs with
  | [] => s
  | d :: rest =>
    insertMany
      { s with product := s.product ++ [("_id", vobjId (genId s.nextId)) :: d],
               nextId := s.nextId + 1 }
      rest

/-- main.py `seed_products` (lines 147-184): a no-op message when
`count_documents({}) > 0`, otherwise insert the fixed demo set and report the
inserted count. -/
def seed_products (s : Store) : Store × SeedResp :=
  if 0 < s.product.length then (s, .message "Products already exist")
  else
    let s' := insertMany s sample_products
    (s', .inserted sample_products.length)

/-! ## The request surface -/

/-- One request to a state-relevant endpoint of the API. -/
inductive Request where
  | listProducts (category : Option String)
  | createProduct (p : ProductR)
  | createOrder (payload : CheckoutPayload)
  | listOrders (email : Option String)
  | seed

/-- The store after handling one request.  The two list endpoints only read
(`find` does not write), so they leave the store unchanged. -/
def stepStore (avail : Avail) (s : Store) : Request → Store
  | .listProducts _ => s
  | .createProduct p => (create_product s p).1
  | .createOrder payload => (create_order avail s payload).1
  | .listOrders _ => s
  | .seed => (seed_products s).1

/-! ## Specification-side formulas -/

/-- The price the checkout resolves for a found product document:
`float(prod.get("price", 0))`, with conversion failure read as 0 (the failing
case never contributes to a successful checkout). -/
def priceOf (d : Doc) : ℚ :=
  match pyFloat (dgetD d "price" (vnum 0)) with
  | .ok q => q
  | .error _ => 0

/-- The spec's line amount for one item: resolved product price times
quantity (0 if the product is absent, a case in which checkout fails). -/
def lineTotal (prods : List Doc) (it : OrderItemR) : ℚ :=
  match prods.find? (idMatches it.product_id) with
  | some d => priceOf d * (it.quantity : ℚ)
  | none => 0

/-- The spec's subtotal formula: the sum over items of price times quantity. -/
def specSubtotal (prods : List Doc) (items : List OrderItemR) : ℚ :=
  (items.map (lineTotal prods)).sum

/-- An item the checkout loop passes without error (given a reachable
store): valid identifier, product present, price convertible to float. -/
def itemOk (prods : List Doc) (it : OrderItemR) : Bool :=
  isValidOid it.product_id &&
    match prods.find? (idMatches it.product_id) with
    | some d =>
      match pyFloat (dgetD d "price" (vnum 0)) with
      | .ok _ => true
      | .error _ => false
    | none => false

/-! ## Concrete fixtures used by witnesses and counterexamples -/

/-- A valid ObjectId string present in the demo store. -/
def oidA : String := "aaaaaaaaaaaaaaaaaaaaaaaa"

/-- A second valid ObjectId string present in the demo store. -/
def oidB : String := "bbbbbbbbbbbbbbbbbbbbbbbb"

/-- A syntactically valid ObjectId string matching no stored product. -/
def oidC : String := "0123456789abcdef01234567"

/-- A stored product document with price 1499.0. -/
def prodA : Doc :=
  [("_id", vobjId oidA), ("title", vstr "Handcrafted Silk Scarf"),
   ("price", vnum 1499), ("category", vstr "Accessories"), ("in_stock", vbool true)]

/-- A stored product document with price 2299.0. -/
def prodB : Doc :=
  [("_id", vobjId oidB), ("title", vstr "Artisanal Pottery Vase"),
   ("price", vnum 2299), ("category", vstr "Home Decor"), ("in_stock", vbool true)]

/-- A stored product document lacking a price field. -/
def prodNoPrice : Doc :=
  [("_id", vobjId oidB), ("title", vstr "Mystery Item"), ("category", vstr "Misc")]

/-- An empty store. -/
def storeEmpty : Store := ⟨[], [], 0⟩

/-- A store holding the two priced demo products. -/
def storeAB : Store := ⟨[prodA, prodB], [], 7⟩

/-- A store holding only the priceless product. -/
def storeNoPrice : Store := ⟨[prodNoPrice], [], 0⟩

/-- The checkout of claim C7: product A twice, product B once. -/
def payloadAB : CheckoutPayload :=
  ⟨"Asha", "asha@example.com", none, "12 Lane", [⟨oidA, 2⟩, ⟨oidB, 1⟩]⟩

/-- A checkout whose only item references an absent (but well-formed) product. -/
def payloadMissing : CheckoutPayload :=
  ⟨"Asha", "asha@example.com", none, "12 Lane", [⟨oidC, 1⟩]⟩

/-- A checkout whose only item has a malformed product identifier. -/
def payloadInvalid : CheckoutPayload :=
  ⟨"Asha", "asha@example.com", none, "12 Lane", [⟨"zzz", 1⟩]⟩

/-- A checkout with a well-formed absent reference first and a malformed one second. -/
def payloadMixed : CheckoutPayload :=
  ⟨"Asha", "asha@example.com", none, "12 Lane", [⟨oidC, 1⟩, ⟨"zzz", 1⟩]⟩

/-- A checkout with a resolving item first, then an absent reference. -/
def payloadPreMissing : CheckoutPayload :=
  ⟨"Asha", "asha@example.com", none, "12 Lane", [⟨oidA, 2⟩, ⟨oidC, 1⟩]⟩

/-- A checkout with a resolving item first, then a malformed identifier. -/
def payloadPreInvalid : CheckoutPayload :=
  ⟨"Asha", "asha@example.com", none, "12 Lane", [⟨oidA, 2⟩, ⟨"zzz", 1⟩]⟩

/-- A checkout whose only item references the priceless product. -/
def payloadNoPrice : CheckoutPayload :=
  ⟨"Asha", "asha@example.com", none, "12 Lane", [⟨oidB, 3⟩]⟩

/-- A stored document carrying an identifier and a timestamp field. -/
def docDT : Doc :=
  [("_id", vobjId oidA), ("name", vstr "x"),
   ("created_at", vdtime "2024-01-01T00:00:00")]

/-! ## Dictionary lemmas -/

theorem dget_eq_none_iff (d : Doc) (k : String) :
    dget d k = none ↔ k ∉ d.map Prod.fst := by
  induction d with
  | nil => simp [dget]
  | cons kv t ih =>
    obtain ⟨k', v⟩ := kv
    by_cases h : k' = k
    · subst h
      simp [dget]
    · simp [dget, h, ih, Ne.symm h]

theorem dget_map_convDT (d : Doc) (k : String) :
    dget (d.map (fun kv => (kv.1, convDT kv.2))) k = (dget d k).map convDT := by
  induction d with
  | nil => simp [dget]
  | cons kv t ih =>
    by_cases h : kv.1 = k
    · simp [dget, h]
    · simp [dget, h, ih]

theorem dget_dset_self (d : Doc) (k : String) (v : Value) :
    dget (dset d k v) k = some v := by
  induction d with
  | nil => simp [dset, dget]
  | cons kv t ih =>
    by_cases h : kv.1 = k
    · simp [dset, dget, h]
    · simp [dset, dget, h, ih]

theorem dget_dset_ne (d : Doc) (k1 k2 : String) (v : Value) (h : k1 ≠ k2) :
    dget (dset d k1 v) k2 = dget d k2 := by
  induction d with
  | nil => simp [dset, dget, h]
  | cons kv t ih =>
    by_cases hk : kv.1 = k1
    · simp [dset, dget, hk, h]
    · simp [dset, dget, hk, ih]

theorem dget_dpop_ne (d : Doc) (k1 k2 : String) (h : k1 ≠ k2) :
    dget (dpop d k1) k2 = dget d k2 := by
  induction d with
  | nil => simp [dpop]
  | cons kv t ih =>
    by_cases hk : kv.1 = k1
    · simp [dpop, dget, hk, h]
    · simp [dpop, dget, hk, ih]

theorem dget_dpop_self (d : Doc) (k : String) (h : (d.map Prod.fst).Nodup) :
    dget (dpop d k) k = none := by
  induction d with
  | nil => simp [dpop, dget]
  | cons kv t ih =>
    simp only [List.map_cons, List.nodup_cons] at h
    by_cases hk : kv.1 = k
    · subst hk
      simp only [dpop, if_pos rfl]
      exact (dget_eq_none_iff t kv.1).mpr h.1
    · simp [dpop, dget, hk, ih h.2]

theorem keys_map_convDT (d : Doc) :
    (d.map (fun kv => (kv.1, convDT kv.2))).map Prod.fst = d.map Prod.fst := by
  simp [List.map_map, Function.comp_def]

theorem convDT_not_datetime (v : Value) : isDatetime (convDT v) = false := by
  cases v <;> simp [convDT, isDatetime]

/-! ## Rounding lemmas -/

theorem roundHalfEven_intCast (z : ℤ) : roundHalfEven (z : ℚ) = z := by
  simp [roundHalfEven]

theorem pyRound2_intCast (z : ℤ) : pyRound2 (z : ℚ) = z := by
  have h : (z : ℚ) * 100 = ((z * 100 : ℤ) : ℚ) := by push_cast; ring
  rw [pyRound2, h, roundHalfEven_intCast]
  push_cast
  field_simp

/-! ## Checkout-loop lemmas -/

theorem subtotalLoop_nil (avail : Avail) (prods : List Doc) (k : Nat) (acc : ℚ) :
    subtotalLoop avail prods [] k acc = .ok acc := rfl

theorem subtotalLoop_cons_ok (prods : List Doc) (it : OrderItemR)
    (rest : List OrderItemR) (k : Nat) (acc : ℚ)
    (h : itemOk prods it = true) :
    subtotalLoop allAvail prods (it :: rest) k acc
      = subtotalLoop allAvail prods rest (k + 1) (acc + lineTotal prods it) := by
  simp only [itemOk, Bool.and_eq_true] at h
  obtain ⟨hv, hrest⟩ := h
  rcases hfind : prods.find? (idMatches it.product_id) with _ | d
  · rw [hfind] at hrest
    simp at hrest
  · rcases hfl : pyFloat (dgetD d "price" (vnum 0)) with e | q
    · simp [hfind, hfl] at hrest
    · simp [subtotalLoop, pyValidate, hv, allAvail, hfind, hfl, lineTotal, priceOf]

theorem subtotalLoop_append_ok (prods : List Doc) (pre : List OrderItemR) :
    (∀ it ∈ pre, itemOk prods it = true) →
    ∀ (l : List OrderItemR) (k : Nat) (acc : ℚ),
      subtotalLoop allAvail prods (pre ++ l) k acc
        = subtotalLoop allAvail prods l (k + pre.length) (acc + specSubtotal prods pre) := by
  induction pre with
  | nil =>
    intro _ l k acc
    simp [specSubtotal]
  | cons it t ih =>
    intro h l k acc
    have hit : itemOk prods it = true := h it (List.mem_cons_self it t)
    have ht : ∀ x ∈ t, itemOk prods x = true := fun x hx => h x (List.mem_cons_of_mem it hx)
    rw [List.cons_append, subtotalLoop_cons_ok prods it (t ++ l) k acc hit, ih ht l (k + 1)]
    congr 1
    · simp [List.length_cons]
      omega
    · simp [specSubtotal]
      ring

theorem subtotalLoop_all_ok (prods : List Doc) (items : List OrderItemR)
    (h : ∀ it ∈ items, itemOk prods it = true) (k : Nat) (acc : ℚ) :
    subtotalLoop allAvail prods items k acc = .ok (acc + specSubtotal prods items) := by
  have := subtotalLoop_append_ok prods items h [] k acc
  simpa [subtotalLoop_nil] using this

theorem subtotalLoop_error (avail : Avail) (prods : List Doc) :
    ∀ (items : List OrderItemR) (k : Nat) (acc : ℚ),
      ((∃ it ∈ items, prods.find? (idMatches it.product_id) = none)
        ∨ (∃ j, j < items.length ∧ avail (k + j) = false)) →
      ∃ e, subtotalLoop avail prods items k acc = .error e := by
  intro items
  induction items with
  | nil =>
    intro k acc h
    rcases h with ⟨it, hmem, _⟩ | ⟨j, hj, _⟩
    · exact absurd hmem (List.not_mem_nil it)
    · simp at hj
  | cons it rest ih =>
    intro k acc h
    rcases hv : pyValidate it.product_id with e | oid
    · exact ⟨⟨500, e⟩, by simp [subtotalLoop, hv]⟩
    · have hoid : oid = it.product_id := by
        rw [pyValidate] at hv
        by_cases hb : isValidOid it.product_id = true
        · rw [if_pos hb] at hv
          injection hv with h2
          exact h2.symm
        · rw [if_neg hb] at hv
          simp at hv
      subst hoid
      rcases ha : avail k with _ | _
      · exact ⟨⟨500, "store unreachable"⟩, by simp [subtotalLoop, hv, ha]⟩
      · rcases hfind : prods.find? (idMatches it.product_id) with _ | d
        · exact ⟨⟨404, "Product not found: " ++ it.product_id⟩, by
            simp [subtotalLoop, hv, ha, hfind]⟩
        · rcases hfl : pyFloat (dgetD d "price" (vnum 0)) with e | q
          · exact ⟨⟨500, e⟩, by simp [subtotalLoop, hv, ha, hfind, hfl]⟩
          · have hnext :
                (∃ x ∈ rest, prods.find? (idMatches x.product_id) = none)
                  ∨ (∃ j, j < rest.length ∧ avail (k + 1 + j) = false) := by
              rcases h with ⟨x, hmem, hx⟩ | ⟨j, hj, hx⟩
              · rcases List.mem_cons.mp hmem with hhd | htl
                · subst hhd
                  rw [hx] at hfind
                  cases hfind
                · exact Or.inl ⟨x, htl, hx⟩
              · rcases j with _ | j'
                · rw [Nat.add_zero] at hx
                  rw [hx] at ha
                  cases ha
                · refine Or.inr ⟨j', ?_, ?_⟩
                  · simpa [Nat.succ_lt_succ_iff] using hj
                  · have hk : k + 1 + j' = k + (j' + 1) := by omega
                    rw [hk]
                    exact hx
            obtain ⟨e, he⟩ := ih (k + 1) (acc + q * (it.quantity : ℚ)) hnext
            exact ⟨e, by simp [subtotalLoop, hv, ha, hfind, hfl, he]⟩

/-! ## Lemmas about the stored order document and the store step -/

theorem idMatches_orderToDoc (id : String) (o : OrderR) :
    idMatches id (orderToDoc id o) = true := by
  simp [idMatches, orderToDoc, dget]

theorem dget_orderToDoc_status (id : String) (o : OrderR) :
    dget (orderToDoc id o) "status" = some (vstr o.status) := by
  simp [orderToDoc, dget]

theorem dget_orderToDoc_subtotal (id : String) (o : OrderR) :
    dget (orderToDoc id o) "subtotal" = some (vnum o.subtotal) := by
  simp [orderToDoc, dget]

theorem dget_orderToDoc_total (id : String) (o : OrderR) :
    dget (orderToDoc id o) "total" = some (vnum o.total) := by
  simp [orderToDoc, dget]

theorem create_order_ok (s : Store) (p : CheckoutPayload)
    (h : ∀ it ∈ p.items, itemOk s.product it = true) :
    (create_order allAvail s p).1
        = { s with
            order := s.order ++
              [orderToDoc (genId s.nextId) (mkOrder p (specSubtotal s.product p.items))],
            nextId := s.nextId + 1 }
      ∧ ∃ d, (create_order allAvail s p).2 = .ok (some d) := by
  have hloop := subtotalLoop_all_ok s.product p.items h 0 0
  rw [zero_add] at hloop
  refine ⟨by simp [create_order, hloop, allAvail], ?_⟩
  rcases hfo : s.order.find? (idMatches (genId s.nextId)) with _ | x
  · exact ⟨serialize_doc (orderToDoc (genId s.nextId) (mkOrder p (specSubtotal s.product p.items))),
      by simp [create_order, hloop, allAvail, hfo, idMatches_orderToDoc]⟩
  · exact ⟨serialize_doc x,
      by simp [create_order, hloop, allAvail, hfo, idMatches_orderToDoc]⟩

theorem create_order_order_shape (avail : Avail) (s : Store) (p : CheckoutPayload) :
    (create_order avail s p).1.order = s.order
      ∨ ∃ id sub, (create_order avail s p).1.order
          = s.order ++ [orderToDoc id (mkOrder p sub)] := by
  rcases hl : subtotalLoop avail s.product p.items 0 0 with e | sub
  · left
    simp [create_order, hl]
  · by_cases h1 : avail p.items.length
    · by_cases h2 : avail (p.items.length + 1)
      · right
        exact ⟨genId s.nextId, sub, by simp [create_order, hl, h1, h2]⟩
      · right
        exact ⟨genId s.nextId, sub, by simp [create_order, hl, h1, h2]⟩
    · left
      simp [create_order, hl, h1]

theorem insertMany_order (docs : List Doc) :
    ∀ s : Store, (insertMany s docs).order = s.order := by
  induction docs with
  | nil => intro s; rfl
  | cons d rest ih => intro s; simp [insertMany, ih]

theorem insertMany_product_length (docs : List Doc) :
    ∀ s : Store, (insertMany s docs).product.length = s.product.length + docs.length := by
  induction docs with
  | nil => intro s; simp [insertMany]
  | cons d rest ih =>
    intro s
    simp [insertMany, ih]
    omega

theorem create_product_order (s : Store) (p : ProductR) :
    (create_product s p).1.order = s.order := rfl

theorem seed_products_order (s : Store) :
    (seed_products s).1.order = s.order := by
  by_cases h : 0 < s.product.length
  · simp [seed_products, h]
  · simp [seed_products, h, insertMany_order]

/-! ## Claims -/

/-- C4: every document serialized for a response loses its storage-internal
"_id" field, gains a public "id" field holding its string form, and has every
timestamp value replaced by its ISO-8601 text; the internal field name is
never exposed. -/
theorem serialize_doc_renames_id_and_converts_timestamps
    (doc : Doc) (oid : String)
    (hnd : (doc.map Prod.fst).Nodup)
    (hid : dget doc "_id" = some (vobjId oid)) :
    "_id" ∉ (serialize_doc doc).map Prod.fst
    ∧ dget (serialize_doc doc) "id" = some (vstr oid)
    ∧ (∀ kv ∈ serialize_doc doc, isDatetime kv.2 = false)
    ∧ (∀ k t, k ≠ "id" → dget doc k = some (vdtime t) →
        dget (serialize_doc doc) k = some (vstr t)) := by
  have hne : doc.isEmpty = false := by
    cases doc with
    | nil => simp [dget] at hid
    | cons kv t => rfl
  have hs : serialize_doc doc
      = (dset (dpop doc "_id") "id" (vstr oid)).map (fun kv => (kv.1, convDT kv.2)) := by
    simp [serialize_doc, hne, hid, pyTruthy, pyStr]
  refine ⟨?_, ?_, ?_, ?_⟩
  · rw [hs, keys_map_convDT]
    rw [← dget_eq_none_iff]
    rw [dget_dset_ne _ _ _ _ (by decide), dget_dpop_self _ _ hnd]
  · rw [hs, dget_map_convDT, dget_dset_self]
    simp [convDT, isDatetime]
  · rw [hs]
    intro kv hkv
    obtain ⟨x, _, hx⟩ := List.mem_map.mp hkv
    rw [← hx]
    exact convDT_not_datetime x.2
  · intro k t hk hdt
    have hkid : k ≠ "_id" := by
      intro he
      rw [he, hid] at hdt
      cases hdt
    rw [hs, dget_map_convDT, dget_dset_ne _ _ _ _ (Ne.symm hk),
      dget_dpop_ne _ _ _ (Ne.symm hkid), hdt]
    simp [convDT, isDatetime, isoOf]

/-- Witness for C4 at a concrete stored document. -/
theorem serialize_doc_renames_id_witness :
    ((docDT.map Prod.fst).Nodup ∧ dget docDT "_id" = some (vobjId oidA))
    ∧ ("_id" ∉ (serialize_doc docDT).map Prod.fst
       ∧ dget (serialize_doc docDT) "id" = some (vstr oidA)
       ∧ (∀ kv ∈ serialize_doc docDT, isDatetime kv.2 = false)
       ∧ (∀ k t, k ≠ "id" → dget docDT k = some (vdtime t) →
           dget (serialize_doc docDT) k = some (vstr t))) :=
  ⟨⟨by decide, rfl⟩,
   serialize_doc_renames_id_and_converts_timestamps docDT oidA (by decide) rfl⟩

/-- C10: an order created through the checkout endpoint has status "pending",
and no endpoint ever stores an order with a different status: the
all-orders-pending invariant is preserved by every request. -/
theorem order_status_always_pending (avail : Avail) (s : Store) (r : Request)
    (h : ∀ d ∈ s.order, dget d "status" = some (vstr "pending")) :
    ∀ d ∈ (stepStore avail s r).order, dget d "status" = some (vstr "pending") := by
  cases r with
  | listProducts c => exact h
  | listOrders e => exact h
  | createProduct p =>
    intro d hd
    rw [stepStore, create_product_order] at hd
    exact h d hd
  | seed =>
    intro d hd
    rw [stepStore, seed_products_order] at hd
    exact h d hd
  | createOrder pl =>
    intro d hd
    rw [stepStore] at hd
    rcases create_order_order_shape avail s pl with heq | ⟨id, sub, heq⟩
    · rw [heq] at hd
      exact h d hd
    · rw [heq] at hd
      rcases List.mem_append.mp hd with h1 | h2
      · exact h d h1
      · have hde : d = orderToDoc id (mkOrder pl sub) := List.mem_singleton.mp h2
        rw [hde, dget_orderToDoc_status]
        rfl

/-- Witness for C10: the empty store satisfies the invariant, and it is
preserved by handling a seed request. -/
theorem order_status_always_pending_witness :
    (∀ d ∈ storeEmpty.order, dget d "status" = some (vstr "pending"))
    ∧ ∀ d ∈ (stepStore allAvail storeEmpty Request.seed).order,
        dget d "status" = some (vstr "pending") :=
  by
  refine ⟨?_, ?_⟩
  · intro d hd
    cases hd
  · exact order_status_always_pending allAvail storeEmpty Request.seed
      (by intro d hd; cases hd)

/-- C3: a checkout that fails during total computation — an absent product,
or an unreachable store at any of the per-item lookups — creates no order:
the whole store is left unchanged and the request errors. -/
theorem checkout_failure_creates_no_order (avail : Avail) (s : Store)
    (p : CheckoutPayload)
    (h : (∃ it ∈ p.items, s.product.find? (idMatches it.product_id) = none)
      ∨ (∃ j, j < p.items.length ∧ avail j = false)) :
    (create_order avail s p).1 = s
    ∧ ∃ e, (create_order avail s p).2 = .error e := by
  have h0 : (∃ it ∈ p.items, s.product.find? (idMatches it.product_id) = none)
      ∨ (∃ j, j < p.items.length ∧ avail (0 + j) = false) := by
    simpa using h
  obtain ⟨e, he⟩ := subtotalLoop_error avail s.product p.items 0 0 h0
  exact ⟨by simp [create_order, he], e, by simp [create_order, he]⟩

/-- Witness for C3: a checkout referencing an absent product on the empty
store errors and leaves the store untouched. -/
theorem checkout_failure_creates_no_order_witness :
    ((∃ it ∈ payloadMissing.items,
        storeEmpty.product.find? (idMatches it.product_id) = none)
      ∨ (∃ j, j < payloadMissing.items.length ∧ allAvail j = false))
    ∧ ((create_order allAvail storeEmpty payloadMissing).1 = storeEmpty
       ∧ ∃ e, (create_order allAvail storeEmpty payloadMissing).2 = .error e) :=
  ⟨Or.inl ⟨⟨oidC, 1⟩, by simp [payloadMissing], rfl⟩,
   checkout_failure_creates_no_order allAvail storeEmpty payloadMissing
     (Or.inl ⟨⟨oidC, 1⟩, by simp [payloadMissing], rfl⟩)⟩

/-- C1: an accepted checkout (every item resolves to a stored product with a
convertible price, store reachable) appends exactly one order whose stored
record has total = subtotal = round(sum of price times quantity, 2), the
prices being those in the store at creation time. -/
theorem order_total_equals_rounded_item_sum (s : Store) (p : CheckoutPayload)
    (h : ∀ it ∈ p.items, itemOk s.product it = true) :
    (∃ d, (create_order allAvail s p).2 = .ok (some d))
    ∧ (create_order allAvail s p).1.order
        = s.order ++
          [orderToDoc (genId s.nextId) (mkOrder p (specSubtotal s.product p.items))]
    ∧ (mkOrder p (specSubtotal s.product p.items)).total
        = (mkOrder p (specSubtotal s.product p.items)).subtotal
    ∧ (mkOrder p (specSubtotal s.product p.items)).subtotal
        = pyRound2 (specSubtotal s.product p.items) := by
  obtain ⟨h1, h2⟩ := create_order_ok s p h
  exact ⟨h2, by rw [h1], rfl, rfl⟩

/-- Witness for C1: the two-item demo checkout is accepted and its stored
totals are the rounded item sum. -/
theorem order_total_equals_rounded_item_sum_witness :
    (∀ it ∈ payloadAB.items, itemOk storeAB.product it = true)
    ∧ ((∃ d, (create_order allAvail storeAB payloadAB).2 = .ok (some d))
       ∧ (create_order allAvail storeAB payloadAB).1.order
           = storeAB.order ++
             [orderToDoc (genId storeAB.nextId)
               (mkOrder payloadAB (specSubtotal storeAB.product payloadAB.items))]
       ∧ (mkOrder payloadAB (specSubtotal storeAB.product payloadAB.items)).total
           = (mkOrder payloadAB (specSubtotal storeAB.product payloadAB.items)).subtotal
       ∧ (mkOrder payloadAB (specSubtotal storeAB.product payloadAB.items)).subtotal
           = pyRound2 (specSubtotal storeAB.product payloadAB.items)) :=
  ⟨by decide,
   order_total_equals_rounded_item_sum storeAB payloadAB (by decide)⟩

/-- Helper: the empty filter matches every document. -/
theorem matchesFilter_nil : matchesFilter [] = fun _ : Doc => true :=
  funext fun _ => rfl

/-- Counterexample to C2 as stated: the item's reference "zzz" matches no
stored product (the store is empty), yet the checkout fails with the generic
500 "Invalid ObjectId" error, not with a 404 naming the reference. -/
theorem missing_product_yields_404_cex :
    storeEmpty.product = []
    ∧ (create_order allAvail storeEmpty payloadInvalid).2
        = .error ⟨500, "Invalid ObjectId"⟩ :=
  ⟨rfl, rfl⟩

/-- C2 (amended): a checkout whose first failing item is a syntactically
valid product reference matching no stored product fails with 404 and a
detail identifying that reference, and no order is stored. -/
theorem missing_product_yields_404 (s : Store) (p : CheckoutPayload)
    (pre rest : List OrderItemR) (it : OrderItemR)
    (hsplit : p.items = pre ++ it :: rest)
    (hpre : ∀ x ∈ pre, itemOk s.product x = true)
    (hv : isValidOid it.product_id = true)
    (hmiss : s.product.find? (idMatches it.product_id) = none) :
    (create_order allAvail s p).1 = s
    ∧ (create_order allAvail s p).2
        = .error ⟨404, "Product not found: " ++ it.product_id⟩ := by
  have hloop : subtotalLoop allAvail s.product p.items 0 0
      = .error ⟨404, "Product not found: " ++ it.product_id⟩ := by
    rw [hsplit, subtotalLoop_append_ok s.product pre hpre (it :: rest) 0 0]
    simp [subtotalLoop, pyValidate, hv, allAvail, hmiss]
  exact ⟨by simp [create_order, hloop], by simp [create_order, hloop]⟩

/-- Witness for the amended C2: after one resolving item, an absent
reference produces the 404 with its identifier in the detail. -/
theorem missing_product_yields_404_witness :
    ((∀ x ∈ [(⟨oidA, 2⟩ : OrderItemR)], itemOk storeAB.product x = true)
      ∧ isValidOid oidC = true
      ∧ storeAB.product.find? (idMatches oidC) = none)
    ∧ ((create_order allAvail storeAB payloadPreMissing).1 = storeAB
       ∧ (create_order allAvail storeAB payloadPreMissing).2
           = .error ⟨404, "Product not found: " ++ oidC⟩) := by
  refine ⟨⟨by decide, by decide, rfl⟩, ?_⟩
  exact missing_product_yields_404 storeAB payloadPreMissing
    [⟨oidA, 2⟩] [] ⟨oidC, 1⟩ rfl (by decide) (by decide) rfl

/-- Counterexample to C9 as stated: a checkout containing a malformed
product identifier ("zzz", its second item) nonetheless fails through the
404 path, because its first item is a well-formed reference to an absent
product and the loop fails there first. -/
theorem invalid_object_id_yields_500_cex :
    isValidOid "zzz" = false
    ∧ (⟨"zzz", 1⟩ : OrderItemR) ∈ payloadMixed.items
    ∧ (create_order allAvail storeEmpty payloadMixed).2
        = .error ⟨404, "Product not found: " ++ oidC⟩ :=
  ⟨by decide, by decide, rfl⟩

/-- C9 (amended): when the first failing item of a checkout is one whose
product identifier is syntactically invalid (every earlier item resolves),
the identifier-validation ValueError escapes to the blanket handler and the
request fails with the generic 500 "Invalid ObjectId", not the 404 path. -/
theorem invalid_object_id_yields_500 (s : Store) (p : CheckoutPayload)
    (pre rest : List OrderItemR) (it : OrderItemR)
    (hsplit : p.items = pre ++ it :: rest)
    (hpre : ∀ x ∈ pre, itemOk s.product x = true)
    (hv : isValidOid it.product_id = false) :
    (create_order allAvail s p).2 = .error ⟨500, "Invalid ObjectId"⟩ := by
  have hloop : subtotalLoop allAvail s.product p.items 0 0
      = .error ⟨500, "Invalid ObjectId"⟩ := by
    rw [hsplit, subtotalLoop_append_ok s.product pre hpre (it :: rest) 0 0]
    simp [subtotalLoop, pyValidate, hv]
  simp [create_order, hloop]

/-- Witness for the amended C9: after one resolving item, the malformed
identifier "zzz" yields the generic 500. -/
theorem invalid_object_id_yields_500_witness :
    ((∀ x ∈ [(⟨oidA, 2⟩ : OrderItemR)], itemOk storeAB.product x = true)
      ∧ isValidOid "zzz" = false)
    ∧ (create_order allAvail storeAB payloadPreInvalid).2
        = .error ⟨500, "Invalid ObjectId"⟩ := by
  refine ⟨⟨by decide, by decide⟩, ?_⟩
  exact invalid_object_id_yields_500 storeAB payloadPreInvalid
    [⟨oidA, 2⟩] [] ⟨"zzz", 1⟩ rfl (by decide) (by decide)

/-- Counterexample to C6 as stated: with the empty string supplied as
category, no stored product's category field matches it, yet the endpoint
returns both stored products (the falsy filter degenerates to match-all). -/
theorem list_products_exact_category_cex :
    (storeAB.product.filter (fun d =>
        match dget d "category" with
        | some (vstr x) => x == ""
        | _ => false)).length = 0
    ∧ (list_products (some "") storeAB).length = 2 :=
  ⟨rfl, rfl⟩

/-- C6 (amended): for every non-empty category string the returned array is
exactly the serialized stored products whose category field equals it; with
no category, or with the empty category string (falsy in the handler), all
products are returned. -/
theorem list_products_exact_category (s : Store) (c : String) (h : c ≠ "") :
    list_products (some c) s
        = (s.product.filter (fun d =>
            match dget d "category" with
            | some (vstr x) => x == c
            | _ => false)).map serialize_doc
    ∧ list_products none s = s.product.map serialize_doc
    ∧ list_products (some "") s = s.product.map serialize_doc := by
  refine ⟨?_, ?_, ?_⟩
  · simp only [list_products, get_documents, if_neg h]
    refine congrArg (List.map serialize_doc) (List.filter_congr ?_)
    intro d _
    rcases hcat : dget d "category" with _ | w
    · simp [matchesFilter, hcat]
    · cases w <;> simp [matchesFilter, hcat, valEq]
  · simp [list_products, get_documents, matchesFilter_nil]
  · simp [list_products, get_documents, matchesFilter_nil]

/-- Witness for the amended C6 at a concrete category. -/
theorem list_products_exact_category_witness :
    ("Accessories" ≠ ""
      ∧ (list_products (some "Accessories") storeAB
          = (storeAB.product.filter (fun d =>
              match dget d "category" with
              | some (vstr x) => x == "Accessories"
              | _ => false)).map serialize_doc
        ∧ list_products none storeAB = storeAB.product.map serialize_doc
        ∧ list_products (some "") storeAB = storeAB.product.map serialize_doc)) := by
  refine ⟨by decide, ?_⟩
  exact list_products_exact_category storeAB "Accessories" (by decide)

/-- C5: seeding is idempotent: whenever the product collection is already
non-empty the call changes nothing and answers with the no-op message; on an
empty collection it inserts the three demo products and reports the count,
and a second call is then a no-op. -/
theorem seed_twice_is_noop (s : Store) :
    (0 < s.product.length →
      seed_products s = (s, SeedResp.message "Products already exist"))
    ∧ (s.product.length = 0 →
        (seed_products s).1.product.length = 3
        ∧ (seed_products s).2 = SeedResp.inserted 3
        ∧ seed_products (seed_products s).1
            = ((seed_products s).1, SeedResp.message "Products already exist")) := by
  constructor
  · intro h
    simp [seed_products, h]
  · intro h
    have hneg : ¬ 0 < s.product.length := by omega
    have h1 : (seed_products s).1 = insertMany s sample_products := by
      simp [seed_products, hneg]
    have hlen : (insertMany s sample_products).product.length = 3 := by
      rw [insertMany_product_length, h]
      rfl
    refine ⟨?_, ?_, ?_⟩
    · rw [h1, hlen]
    · simp [seed_products, hneg]
      rfl
    · rw [h1]
      have hpos : 0 < (insertMany s sample_products).product.length := by
        rw [hlen]
        omega
      simp [seed_products, hpos]

/-- Witness for C5: a populated store is left untouched with the no-op
message; the empty store receives the three demo products, after which a
second seed is a no-op. -/
theorem seed_twice_is_noop_witness :
    (0 < storeAB.product.length
      ∧ seed_products storeAB = (storeAB, SeedResp.message "Products already exist"))
    ∧ (storeEmpty.product.length = 0
       ∧ ((seed_products storeEmpty).1.product.length = 3
          ∧ (seed_products storeEmpty).2 = SeedResp.inserted 3
          ∧ seed_products (seed_products storeEmpty).1
              = ((seed_products storeEmpty).1,
                 SeedResp.message "Products already exist"))) := by
  refine ⟨⟨by decide, ?_⟩, ⟨rfl, ?_⟩⟩
  · exact (seed_twice_is_noop storeAB).1 (by decide)
  · exact (seed_twice_is_noop storeEmpty).2 rfl

/-- C7: for the demo checkout [(product A, qty 2), (product B, qty 1)] with
prices 1499.0 and 2299.0, the stored order's subtotal (and total) is 5297.0. -/
theorem checkout_demo_subtotal_5297 :
    (create_order allAvail storeAB payloadAB).1.order.map (fun d => dget d "subtotal")
        = [some (vnum 5297)]
    ∧ (create_order allAvail storeAB payloadAB).1.order.map (fun d => dget d "total")
        = [some (vnum 5297)] := by
  have hfA : storeAB.product.find? (idMatches oidA) = some prodA := rfl
  have hfB : storeAB.product.find? (idMatches oidB) = some prodB := rfl
  have hpA : priceOf prodA = 1499 := rfl
  have hpB : priceOf prodB = 2299 := rfl
  have hS : specSubtotal storeAB.product payloadAB.items = 5297 := by
    simp [specSubtotal, payloadAB, lineTotal, hfA, hfB, hpA, hpB]
    norm_num
  have hr : pyRound2 (5297 : ℚ) = 5297 := by
    have h52 := pyRound2_intCast 5297
    norm_num at h52
    exact h52
  obtain ⟨ho, _⟩ := create_order_ok storeAB payloadAB (by decide)
  have hS2 : specSubtotal [prodA, prodB] payloadAB.items = 5297 := hS
  constructor
  · rw [ho]
    simp [storeAB, dget_orderToDoc_subtotal, mkOrder]
    rw [hS2]
    exact hr
  · rw [ho]
    simp [storeAB, dget_orderToDoc_total, mkOrder]
    rw [hS2]
    exact hr

/-- C8: when a checkout item's product document exists but has no price
field, the computation reads the price as 0 and succeeds: `float(0)` is
returned, the checkout is accepted, and the stored order totals round 0. -/
theorem missing_price_treated_as_zero (s : Store)
    (cn ce sa : String) (cp : Option String) (it : OrderItemR) (d : Doc)
    (hv : isValidOid it.product_id = true)
    (hf : s.product.find? (idMatches it.product_id) = some d)
    (hp : dget d "price" = none) :
    pyFloat (dgetD d "price" (vnum 0)) = .ok 0
    ∧ (∃ doc, (create_order allAvail s ⟨cn, ce, cp, sa, [it]⟩).2 = .ok (some doc))
    ∧ (create_order allAvail s ⟨cn, ce, cp, sa, [it]⟩).1.order
        = s.order ++ [orderToDoc (genId s.nextId) (mkOrder ⟨cn, ce, cp, sa, [it]⟩ 0)] := by
  have hpf : pyFloat (dgetD d "price" (vnum 0)) = .ok 0 := by
    simp [dgetD, hp, pyFloat]
  have hok : ∀ x ∈ ((⟨cn, ce, cp, sa, [it]⟩ : CheckoutPayload)).items,
      itemOk s.product x = true := by
    intro x hx
    have hxe : x = it := List.mem_singleton.mp hx
    subst hxe
    simp [itemOk, hv, hf, hpf]
  obtain ⟨h1, h2⟩ := create_order_ok s ⟨cn, ce, cp, sa, [it]⟩ hok
  have hspec : specSubtotal s.product [it] = 0 := by
    simp [specSubtotal, lineTotal, hf, priceOf, hpf]
  refine ⟨hpf, h2, ?_⟩
  rw [h1]
  simp [hspec]

/-- Witness for C8: checking out the priceless product succeeds with order
totals from a zero subtotal. -/
theorem missing_price_treated_as_zero_witness :
    (isValidOid oidB = true
      ∧ storeNoPrice.product.find? (idMatches oidB) = some prodNoPrice
      ∧ dget prodNoPrice "price" = none)
    ∧ (pyFloat (dgetD prodNoPrice "price" (vnum 0)) = .ok 0
       ∧ (∃ doc,
            (create_order allAvail storeNoPrice
              ⟨"Asha", "asha@example.com", none, "12 Lane", [⟨oidB, 3⟩]⟩).2
              = .ok (some doc))
       ∧ (create_order allAvail storeNoPrice
            ⟨"Asha", "asha@example.com", none, "12 Lane", [⟨oidB, 3⟩]⟩).1.order
            = storeNoPrice.order ++
              [orderToDoc (genId storeNoPrice.nextId)
                (mkOrder ⟨"Asha", "asha@example.com", none, "12 Lane", [⟨oidB, 3⟩]⟩ 0)]) := by
  refine ⟨⟨by decide, rfl, rfl⟩, ?_⟩
  exact missing_price_treated_as_zero storeNoPrice
    "Asha" "asha@example.com" "12 Lane" none ⟨oidB, 3⟩ prodNoPrice
    (by decide) rfl rfl
